import Mathlib

/-!
Verification of the resilient request executor of AURA-GOLD-CLINICAL.

The executor is `fetchWithRetry` (src/unnamed/part_000, lines 135-147):

  const fetchWithRetry = async (url, options, retries = 5, backoff = 1000) => {
    try {
      const res = await fetch(url, options);
      if (!res.ok) throw new Error(`HTTP ${res.status}`);
      return await res.json();
    } catch (err) {
      if (retries > 0) {
        await new Promise(r => setTimeout(r, backoff));
        return fetchWithRetry(url, options, retries - 1, backoff * 2);
      }
      throw err;
    }
  };

We embed it as a pure function over an explicit transport oracle.  The
transport maps an attempt index and the request descriptor handed to it to
the outcome of that single `fetch` call: either a rejection of the `fetch`
promise (network failure), or a response carrying the `ok` flag, the
numeric `status`, and the outcome of `res.json()` (which itself either
rejects with a decoding error or resolves to the decoded payload).

The embedding returns a `Trace`: the list of request descriptors handed to
the transport (one per attempt, in order), the list of backoff waits
inserted (in order), and the final settled outcome of the returned promise.
Because `return await res.json()` sits INSIDE the `try` block, a rejection
of `res.json()` is caught by the same `catch` as transport errors and
non-ok statuses, and is therefore subject to the same retry policy.
-/

/-- A request option bag: method, headers, body — opaque to the executor,
mirroring the JS `options` object passed through unchanged to `fetch`. -/
structure Options where
  method : String
  headers : List (String × String)
  body : String
deriving DecidableEq, Repr

/-- The request descriptor: target URL plus options, exactly the pair of
arguments `fetchWithRetry` hands to `fetch` on each attempt. -/
structure Request where
  url : String
  options : Options
deriving DecidableEq, Repr

/-- Outcome of one underlying `fetch` call, as observed by the executor:
either the `fetch` promise rejects (network/transport failure), or it
resolves to a response with an `ok` flag, a numeric `status`, and a body
whose `res.json()` either rejects with a parse error or resolves to the
decoded payload. -/
inductive AttemptResult (α : Type) where
  | netFail (msg : String)
  | resp (ok : Bool) (status : Nat) (body : Except String α)
deriving Repr

/-- A transport oracle: the behaviour of `fetch` on the given attempt index
(0 = first try) for the given request descriptor. -/
def Transport (α : Type) : Type := Nat → Request → AttemptResult α

/-- The error classes thrown inside the `try` block of `fetchWithRetry`:
a rejected `fetch` (transport error), the HTTP-status `Error` thrown on
`!res.ok` (carrying `res.status`), or a rejected `res.json()` (decoding
error). -/
inductive JsErr where
  | transport (msg : String)
  | httpStatus (status : Nat)
  | decode (msg : String)
deriving DecidableEq, Repr

/-- The body of the `try` block of `fetchWithRetry` on one attempt:
`await fetch` (may throw a transport error), the `!res.ok` status check
(throws the HTTP-status error), then `await res.json()` (may throw a
decoding error); on success the decoded value is returned. -/
def attemptOnce {α : Type} (t : Transport α) (req : Request) (idx : Nat) :
    Except JsErr α :=
  match t idx req with
  | .netFail m => .error (.transport m)
  | .resp ok status body =>
    if ok = false then .error (.httpStatus status)
    else
      match body with
      | .error m => .error (.decode m)
      | .ok v => .ok v

/-- The observable trace of one logical call: the request descriptor handed
to the transport on each attempt (in order), the backoff waits inserted
before each retry (in order), and the final outcome. -/
structure Trace (α : Type) where
  attempts : List Request
  delays : List Int
  result : Except JsErr α
deriving Repr

/-- The executor `fetchWithRetry`, embedded with its observable trace.
`retries` and `backoff` are JS numbers, kept as integers (`retries - 1` and
`backoff * 2` are the only arithmetic); `idx` counts attempts already made
so the transport oracle can vary per attempt.  On a caught error the JS
code tests `retries > 0`: if so it waits `backoff`, recurses with
`retries - 1` and `backoff * 2`; otherwise it rethrows the caught error. -/
def fetchWithRetry {α : Type} (t : Transport α) (url : String)
    (options : Options) (retries : Int) (backoff : Int) (idx : Nat) :
    Trace α :=
  match attemptOnce t ⟨url, options⟩ idx with
  | .ok v => ⟨[⟨url, options⟩], [], .ok v⟩
  | .error e =>
    if h : retries > 0 then
      let rest := fetchWithRetry t url options (retries - 1) (backoff * 2) (idx + 1)
      ⟨⟨url, options⟩ :: rest.attempts, backoff :: rest.delays, rest.result⟩
    else ⟨[⟨url, options⟩], [], .error e⟩
termination_by retries.toNat
decreasing_by omega

/-! ### Concrete transports and option bags used by witnesses -/

/-- An option bag as built by the callers in the source (`method: POST`,
JSON content type, serialized body). -/
def opts0 : Options := ⟨"POST", [("Content-Type", "application/json")], "{}"⟩

/-- A transport that fails at the network level on every attempt. -/
def alwaysDown {α : Type} : Transport α := fun _ _ => .netFail "down"

/-- A transport that always completes with a success status but whose body
never parses as JSON: `res.json()` rejects on every attempt. -/
def badJson : Transport Nat := fun _ _ => .resp true 200 (.error "bad json")

/-! ### Unfolding lemmas, one per branch of the executor -/

/-- If the attempt at index `idx` succeeds, the executor returns at once:
one attempt, no delay, the decoded value. -/
theorem fetchWithRetry_of_ok {α : Type} (t : Transport α) (url : String)
    (options : Options) (retries backoff : Int) (idx : Nat) (v : α)
    (h : attemptOnce t ⟨url, options⟩ idx = .ok v) :
    fetchWithRetry t url options retries backoff idx =
      ⟨[⟨url, options⟩], [], .ok v⟩ := by
  rw [fetchWithRetry.eq_def, h]

/-- If the attempt at index `idx` fails and `retries > 0`, the executor
waits `backoff` and recurses with `retries - 1`, `backoff * 2`. -/
theorem fetchWithRetry_of_error_pos {α : Type} (t : Transport α) (url : String)
    (options : Options) (retries backoff : Int) (idx : Nat) (e : JsErr)
    (h : attemptOnce t ⟨url, options⟩ idx = .error e) (hr : 0 < retries) :
    fetchWithRetry t url options retries backoff idx =
      ⟨⟨url, options⟩ ::
         (fetchWithRetry t url options (retries - 1) (backoff * 2) (idx + 1)).attempts,
       backoff ::
         (fetchWithRetry t url options (retries - 1) (backoff * 2) (idx + 1)).delays,
       (fetchWithRetry t url options (retries - 1) (backoff * 2) (idx + 1)).result⟩ := by
  rw [fetchWithRetry.eq_def, h]
  exact dif_pos hr

/-- If the attempt at index `idx` fails and the budget is not positive, the
executor rethrows the caught error: one attempt, no delay. -/
theorem fetchWithRetry_of_error_nonpos {α : Type} (t : Transport α)
    (url : String) (options : Options) (retries backoff : Int) (idx : Nat)
    (e : JsErr) (h : attemptOnce t ⟨url, options⟩ idx = .error e)
    (hr : retries ≤ 0) :
    fetchWithRetry t url options retries backoff idx =
      ⟨[⟨url, options⟩], [], .error e⟩ := by
  rw [fetchWithRetry.eq_def, h]
  exact dif_neg (by omega)

/-! ### Structural lemmas shared by several claims -/

/-- Every execution makes at least one attempt. -/
theorem attempts_length_pos {α : Type} (t : Transport α) (url : String)
    (options : Options) (retries backoff : Int) (idx : Nat) :
    1 ≤ (fetchWithRetry t url options retries backoff idx).attempts.length := by
  induction retries, backoff, idx using fetchWithRetry.induct t url options with
  | case1 retries backoff idx v h =>
    rw [fetchWithRetry_of_ok t url options retries backoff idx v h]
    simp
  | case2 retries backoff idx e h hr ih =>
    rw [fetchWithRetry_of_error_pos t url options retries backoff idx e h hr]
    simp
  | case3 retries backoff idx e h hr =>
    rw [fetchWithRetry_of_error_nonpos t url options retries backoff idx e h
      (by omega)]
    simp

/-- The number of attempts never exceeds `retries.toNat + 1`, i.e.
`max(retries, 0) + 1`. -/
theorem attempts_length_le {α : Type} (t : Transport α) (url : String)
    (options : Options) (retries backoff : Int) (idx : Nat) :
    (fetchWithRetry t url options retries backoff idx).attempts.length ≤
      retries.toNat + 1 := by
  induction retries, backoff, idx using fetchWithRetry.induct t url options with
  | case1 retries backoff idx v h =>
    rw [fetchWithRetry_of_ok t url options retries backoff idx v h]
    simp
  | case2 retries backoff idx e h hr ih =>
    rw [fetchWithRetry_of_error_pos t url options retries backoff idx e h hr]
    simp only [List.length_cons]
    omega
  | case3 retries backoff idx e h hr =>
    rw [fetchWithRetry_of_error_nonpos t url options retries backoff idx e h
      (by omega)]
    simp

/-- The `k`-th inserted delay (0-based) is `backoff * 2 ^ k`: the wait
before retry number `k + 1` doubles the previous one, starting at
`backoff`. -/
theorem delays_formula {α : Type} (t : Transport α) (url : String)
    (options : Options) (retries backoff : Int) (idx : Nat) :
    ∀ k, k < (fetchWithRetry t url options retries backoff idx).delays.length →
      (fetchWithRetry t url options retries backoff idx).delays.getD k 0 =
        backoff * 2 ^ k := by
  induction retries, backoff, idx using fetchWithRetry.induct t url options with
  | case1 retries backoff idx v h =>
    rw [fetchWithRetry_of_ok t url options retries backoff idx v h]
    simp
  | case2 retries backoff idx e h hr ih =>
    rw [fetchWithRetry_of_error_pos t url options retries backoff idx e h hr]
    intro k hk
    cases k with
    | zero => simp
    | succ k =>
      simp only [List.getD_cons_succ]
      rw [ih k (by simpa using hk)]
      ring
  | case3 retries backoff idx e h hr =>
    rw [fetchWithRetry_of_error_nonpos t url options retries backoff idx e h
      (by omega)]
    simp

/-- Every request descriptor handed to the transport is exactly the
original `⟨url, options⟩` pair: nothing is mutated between attempts. -/
theorem attempts_all_original {α : Type} (t : Transport α) (url : String)
    (options : Options) (retries backoff : Int) (idx : Nat) :
    ∀ r ∈ (fetchWithRetry t url options retries backoff idx).attempts,
      r = ⟨url, options⟩ := by
  induction retries, backoff, idx using fetchWithRetry.induct t url options with
  | case1 retries backoff idx v h =>
    rw [fetchWithRetry_of_ok t url options retries backoff idx v h]
    simp
  | case2 retries backoff idx e h hr ih =>
    rw [fetchWithRetry_of_error_pos t url options retries backoff idx e h hr]
    intro r hr2
    rcases List.mem_cons.mp hr2 with h1 | h1
    · exact h1
    · exact ih r h1
  | case3 retries backoff idx e h hr =>
    rw [fetchWithRetry_of_error_nonpos t url options retries backoff idx e h
      (by omega)]
    simp

/-- The final outcome of a logical call is exactly the outcome of its last
attempt: a success is the value decoded on the last attempt, a terminal
failure is the error of the last attempt.  In particular no error is
swallowed and no fallback value is fabricated. -/
theorem result_eq_last_attempt {α : Type} (t : Transport α) (url : String)
    (options : Options) (retries backoff : Int) (idx : Nat) :
    (fetchWithRetry t url options retries backoff idx).result =
      attemptOnce t ⟨url, options⟩
        (idx + ((fetchWithRetry t url options retries backoff idx).attempts.length - 1)) := by
  induction retries, backoff, idx using fetchWithRetry.induct t url options with
  | case1 retries backoff idx v h =>
    rw [fetchWithRetry_of_ok t url options retries backoff idx v h]
    simpa using h.symm
  | case2 retries backoff idx e h hr ih =>
    rw [fetchWithRetry_of_error_pos t url options retries backoff idx e h hr]
    have hpos := attempts_length_pos t url options (retries - 1) (backoff * 2) (idx + 1)
    simp only [List.length_cons]
    rw [ih]
    congr 1
    omega
  | case3 retries backoff idx e h hr =>
    rw [fetchWithRetry_of_error_nonpos t url options retries backoff idx e h
      (by omega)]
    simpa using h.symm

/-- `attemptOnce` inspects the transport only at the current attempt
index. -/
theorem attemptOnce_congr {α : Type} (t u : Transport α) (req : Request)
    (idx : Nat) (h : t idx req = u idx req) :
    attemptOnce t req idx = attemptOnce u req idx := by
  unfold attemptOnce
  rw [h]

/-- Two transports that agree from attempt `idx` on produce identical
executions starting at `idx`. -/
theorem fetchWithRetry_congr {α : Type} (t u : Transport α) (url : String)
    (options : Options) (retries backoff : Int) (idx : Nat)
    (hag : ∀ j req, idx ≤ j → t j req = u j req) :
    fetchWithRetry t url options retries backoff idx =
      fetchWithRetry u url options retries backoff idx := by
  induction retries, backoff, idx using fetchWithRetry.induct t url options with
  | case1 retries backoff idx v h =>
    have h2 : attemptOnce u ⟨url, options⟩ idx = .ok v := by
      rw [← attemptOnce_congr t u ⟨url, options⟩ idx (hag idx ⟨url, options⟩ le_rfl)]
      exact h
    rw [fetchWithRetry_of_ok t url options retries backoff idx v h,
      fetchWithRetry_of_ok u url options retries backoff idx v h2]
  | case2 retries backoff idx e h hr ih =>
    have h2 : attemptOnce u ⟨url, options⟩ idx = .error e := by
      rw [← attemptOnce_congr t u ⟨url, options⟩ idx (hag idx ⟨url, options⟩ le_rfl)]
      exact h
    rw [fetchWithRetry_of_error_pos t url options retries backoff idx e h hr,
      fetchWithRetry_of_error_pos u url options retries backoff idx e h2 hr,
      ih (fun j req hj => hag j req (by omega))]
  | case3 retries backoff idx e h hr =>
    have h2 : attemptOnce u ⟨url, options⟩ idx = .error e := by
      rw [← attemptOnce_congr t u ⟨url, options⟩ idx (hag idx ⟨url, options⟩ le_rfl)]
      exact h
    rw [fetchWithRetry_of_error_nonpos t url options retries backoff idx e h
      (by omega),
      fetchWithRetry_of_error_nonpos u url options retries backoff idx e h2
      (by omega)]

/-- Against a transport whose every attempt fails, a budget of `n` retries
yields exactly `n + 1` attempts and a terminal error. -/
theorem failing_transport_count {α : Type} (t : Transport α) (url : String)
    (options : Options)
    (hfail : ∀ i, ∃ e, attemptOnce t ⟨url, options⟩ i = .error e) :
    ∀ (n : Nat) (backoff : Int) (idx : Nat),
      (fetchWithRetry t url options (n : Int) backoff idx).attempts.length = n + 1 ∧
      ∃ e, (fetchWithRetry t url options (n : Int) backoff idx).result =
        .error e := by
  intro n
  induction n with
  | zero =>
    intro backoff idx
    obtain ⟨e, he⟩ := hfail idx
    simp only [Nat.cast_zero]
    rw [fetchWithRetry_of_error_nonpos t url options 0 backoff idx e he le_rfl]
    exact ⟨rfl, e, rfl⟩
  | succ n ih =>
    intro backoff idx
    obtain ⟨e, he⟩ := hfail idx
    have hr : (0 : Int) < ((n + 1 : Nat) : Int) := by positivity
    rw [fetchWithRetry_of_error_pos t url options ((n + 1 : Nat) : Int) backoff
      idx e he hr]
    have hcast : ((n + 1 : Nat) : Int) - 1 = (n : Int) := by push_cast; ring
    rw [hcast]
    obtain ⟨hlen, e2, hres⟩ := ih (backoff * 2) (idx + 1)
    refine ⟨?_, e2, hres⟩
    simp only [List.length_cons, hlen]

/-- A transport that completes every attempt with a failing HTTP status on
the first attempt and a network failure afterwards (used to compare the
treatment of the two retryable error classes). -/
def status500 : Transport Nat :=
  fun i _ => if i = 0 then .resp false 500 (.ok 7) else .netFail "down"

/-- A transport that succeeds on the first try with a decodable body. -/
def goodJson : Transport Nat := fun _ _ => .resp true 200 (.ok 42)

/-! ### Claims -/

/-- C1 (counterexample): against a transport whose every response has a
success status but an undecodable body, `fetchWithRetry` with one retry
performs 2 attempts and inserts a backoff wait — the decoding error is NOT
surfaced immediately with zero additional retry attempts, because
`return await res.json()` sits inside the `try` block and its rejection is
caught by the same `catch` that drives retries. -/
theorem C1_decode_retried_counterexample :
    (fetchWithRetry badJson "u" opts0 1 1000 0).attempts.length = 2 ∧
    (fetchWithRetry badJson "u" opts0 1 1000 0).delays = [1000] ∧
    (fetchWithRetry badJson "u" opts0 1 1000 0).result =
      .error (.decode "bad json") := by
  refine ⟨?_, ?_, ?_⟩ <;> simp [fetchWithRetry, attemptOnce, badJson]

/-- C1 (amended): a decoding error on an otherwise-successful transport
response is classified as a `decode` error but handled by the same retry
policy as every other failure: with positive budget the executor waits the
current backoff and retries the identical request; the decoding error is
surfaced to the caller only when the retry budget is exhausted. -/
theorem C1_decode_error_policy {α : Type} (t : Transport α) (url : String)
    (options : Options) (retries backoff : Int) (idx : Nat) (s : Nat)
    (m : String) (ht : t idx ⟨url, options⟩ = .resp true s (.error m)) :
    attemptOnce t ⟨url, options⟩ idx = .error (.decode m) ∧
    (0 < retries →
      fetchWithRetry t url options retries backoff idx =
        ⟨⟨url, options⟩ ::
           (fetchWithRetry t url options (retries - 1) (backoff * 2) (idx + 1)).attempts,
         backoff ::
           (fetchWithRetry t url options (retries - 1) (backoff * 2) (idx + 1)).delays,
         (fetchWithRetry t url options (retries - 1) (backoff * 2) (idx + 1)).result⟩) ∧
    (retries ≤ 0 →
      fetchWithRetry t url options retries backoff idx =
        ⟨[⟨url, options⟩], [], .error (.decode m)⟩) := by
  have ha : attemptOnce t ⟨url, options⟩ idx = .error (.decode m) := by
    unfold attemptOnce
    rw [ht]
    simp
  exact ⟨ha,
    fun hr => fetchWithRetry_of_error_pos t url options retries backoff idx _ ha hr,
    fun hr => fetchWithRetry_of_error_nonpos t url options retries backoff idx _ ha hr⟩

/-- C1 (witness for the amended claim): the decode-error policy applied to
the concrete undecodable transport with one retry. -/
theorem C1_decode_error_policy_witness :
    attemptOnce badJson ⟨"u", opts0⟩ 0 = .error (.decode "bad json") :=
  (C1_decode_error_policy badJson "u" opts0 1 1000 0 200 "bad json" rfl).1

/-- C2: against a permanently failing transport, a budget of `n ≥ 0`
retries performs exactly `n + 1` attempts and ends in a terminal error;
and for every transport whatsoever, at most `n + 1` attempts are made. -/
theorem C2_attempt_budget {α : Type} (t : Transport α) (url : String)
    (options : Options) (backoff : Int) (idx : Nat) (n : Nat)
    (hfail : ∀ i, ∃ e, attemptOnce t ⟨url, options⟩ i = .error e) :
    (fetchWithRetry t url options (n : Int) backoff idx).attempts.length = n + 1 ∧
    (∃ e, (fetchWithRetry t url options (n : Int) backoff idx).result = .error e) ∧
    ∀ (u : Transport α) (b : Int) (j : Nat),
      (fetchWithRetry u url options (n : Int) b j).attempts.length ≤ n + 1 := by
  obtain ⟨h1, h2⟩ := failing_transport_count t url options hfail n backoff idx
  refine ⟨h1, h2, fun u b j => ?_⟩
  have h3 := attempts_length_le u url options (n : Int) b j
  simpa using h3

/-- C2 (witness): two retries against the always-down transport make
exactly three attempts. -/
theorem C2_attempt_budget_witness :
    (fetchWithRetry (alwaysDown : Transport Nat) "u" opts0 ((2 : Nat) : Int)
      1000 0).attempts.length = 2 + 1 :=
  (C2_attempt_budget alwaysDown "u" opts0 1000 0 2
    (fun _ => ⟨.transport "down", rfl⟩)).1

/-- C3: the `k`-th backoff wait of any execution (0-based, i.e. the wait
before retry `k + 1`) equals `backoff * 2 ^ k`: the delay sequence is
`backoff, 2*backoff, 4*backoff, …`, deterministic with no jitter. -/
theorem C3_backoff_doubling {α : Type} (t : Transport α) (url : String)
    (options : Options) (retries backoff : Int) (idx : Nat) (k : Nat)
    (hk : k < (fetchWithRetry t url options retries backoff idx).delays.length) :
    (fetchWithRetry t url options retries backoff idx).delays.getD k 0 =
      backoff * 2 ^ k :=
  delays_formula t url options retries backoff idx k hk

/-- C3 (witness): the third wait of a four-attempt failing run is
`1000 * 2 ^ 2 = 4000`. -/
theorem C3_backoff_doubling_witness :
    (fetchWithRetry (alwaysDown : Transport Nat) "u" opts0 3 1000 0).delays.getD
      2 0 = 1000 * 2 ^ 2 :=
  C3_backoff_doubling alwaysDown "u" opts0 3 1000 0 2
    (by simp [fetchWithRetry, attemptOnce, alwaysDown])

/-- C4: every request descriptor handed to the transport during one
logical call is exactly the original `⟨url, options⟩`: retries repeat the
identical request, nothing is mutated between attempts. -/
theorem C4_request_never_mutated {α : Type} (t : Transport α) (url : String)
    (options : Options) (retries backoff : Int) (idx : Nat) (r : Request)
    (hmem : r ∈ (fetchWithRetry t url options retries backoff idx).attempts) :
    r = ⟨url, options⟩ :=
  attempts_all_original t url options retries backoff idx r hmem

/-- C4 (witness): the descriptor of the second attempt of a failing run is
the original one. -/
theorem C4_request_never_mutated_witness :
    (⟨"u", opts0⟩ : Request) = ⟨"u", opts0⟩ :=
  C4_request_never_mutated (alwaysDown : Transport Nat) "u" opts0 1 1000 0
    ⟨"u", opts0⟩ (by simp [fetchWithRetry, attemptOnce, alwaysDown])

/-- C5: a completed response with a non-success status is classified as an
`httpStatus` error (not a `decode` error); with positive budget the
executor waits and retries, with exhausted budget it fails terminally; and
its treatment is identical to a transport error: against a second
transport that network-fails at the same attempt and agrees afterwards,
the attempts and delays coincide, and so do the results whenever a retry
happens. -/
theorem C5_status_failure_retryable {α : Type} (t u : Transport α)
    (url : String) (options : Options) (retries backoff : Int) (idx : Nat)
    (s : Nat) (body : Except String α) (m : String)
    (ht : t idx ⟨url, options⟩ = .resp false s body)
    (hu : u idx ⟨url, options⟩ = .netFail m)
    (hag : ∀ j req, idx < j → t j req = u j req) :
    attemptOnce t ⟨url, options⟩ idx = .error (.httpStatus s) ∧
    (0 < retries →
      fetchWithRetry t url options retries backoff idx =
        ⟨⟨url, options⟩ ::
           (fetchWithRetry t url options (retries - 1) (backoff * 2) (idx + 1)).attempts,
         backoff ::
           (fetchWithRetry t url options (retries - 1) (backoff * 2) (idx + 1)).delays,
         (fetchWithRetry t url options (retries - 1) (backoff * 2) (idx + 1)).result⟩) ∧
    (retries ≤ 0 →
      fetchWithRetry t url options retries backoff idx =
        ⟨[⟨url, options⟩], [], .error (.httpStatus s)⟩) ∧
    (fetchWithRetry t url options retries backoff idx).attempts =
      (fetchWithRetry u url options retries backoff idx).attempts ∧
    (fetchWithRetry t url options retries backoff idx).delays =
      (fetchWithRetry u url options retries backoff idx).delays ∧
    (0 < retries →
      (fetchWithRetry t url options retries backoff idx).result =
        (fetchWithRetry u url options retries backoff idx).result) := by
  have ha : attemptOnce t ⟨url, options⟩ idx = .error (.httpStatus s) := by
    unfold attemptOnce
    rw [ht]
    simp
  have hb : attemptOnce u ⟨url, options⟩ idx = .error (.transport m) := by
    unfold attemptOnce
    rw [hu]
  have hrec : fetchWithRetry t url options (retries - 1) (backoff * 2) (idx + 1) =
      fetchWithRetry u url options (retries - 1) (backoff * 2) (idx + 1) :=
    fetchWithRetry_congr t u url options (retries - 1) (backoff * 2) (idx + 1)
      (fun j req hj => hag j req (by omega))
  rcases lt_or_le 0 retries with hr | hr
  · rw [fetchWithRetry_of_error_pos t url options retries backoff idx _ ha hr,
      fetchWithRetry_of_error_pos u url options retries backoff idx _ hb hr,
      hrec]
    exact ⟨ha, fun _ => rfl, fun h0 => absurd h0 (by omega), rfl, rfl,
      fun _ => rfl⟩
  · rw [fetchWithRetry_of_error_nonpos t url options retries backoff idx _ ha hr,
      fetchWithRetry_of_error_nonpos u url options retries backoff idx _ hb hr]
    exact ⟨ha, fun h0 => absurd h0 (by omega), fun _ => rfl, rfl, rfl,
      fun h0 => absurd h0 (by omega)⟩

/-- C5 (witness): the concrete non-success-status transport is classified
as an HTTP-status error at its first attempt. -/
theorem C5_status_failure_retryable_witness :
    attemptOnce status500 ⟨"u", opts0⟩ 0 = .error (.httpStatus 500) :=
  (C5_status_failure_retryable status500 alwaysDown "u" opts0 1 1000 0 500
    (.ok 7) "down" rfl rfl
    (fun j _ hj => by
      have hne : j ≠ 0 := by omega
      simp [status500, alwaysDown, hne])).1

/-- C6: the outcome of a logical call is exactly the outcome of its last
attempt; in particular a terminal failure carries the error observed on
the last attempt — no error is swallowed and no fallback value is
fabricated. -/
theorem C6_terminal_error_is_last {α : Type} (t : Transport α) (url : String)
    (options : Options) (retries backoff : Int) (idx : Nat) (e : JsErr)
    (he : (fetchWithRetry t url options retries backoff idx).result = .error e) :
    attemptOnce t ⟨url, options⟩
      (idx + ((fetchWithRetry t url options retries backoff idx).attempts.length - 1)) =
      .error e ∧
    (fetchWithRetry t url options retries backoff idx).result =
      attemptOnce t ⟨url, options⟩
        (idx + ((fetchWithRetry t url options retries backoff idx).attempts.length - 1)) := by
  have h := result_eq_last_attempt t url options retries backoff idx
  exact ⟨h ▸ he, h⟩

/-- C6 (witness): the terminal error of a one-retry run against the
always-down transport is the transport error of its last attempt. -/
theorem C6_terminal_error_is_last_witness :
    attemptOnce (alwaysDown : Transport Nat) ⟨"u", opts0⟩
      (0 + ((fetchWithRetry (alwaysDown : Transport Nat) "u" opts0 1 1000
        0).attempts.length - 1)) = .error (.transport "down") :=
  (C6_terminal_error_is_last alwaysDown "u" opts0 1 1000 0 (.transport "down")
    (by simp [fetchWithRetry, attemptOnce, alwaysDown])).1

/-- C7: with a retry budget of `0`, a failing first attempt produces
exactly one attempt, no backoff wait, and the terminal failure. -/
theorem C7_zero_retries_single_attempt {α : Type} (t : Transport α)
    (url : String) (options : Options) (backoff : Int) (idx : Nat) (e : JsErr)
    (hfail : attemptOnce t ⟨url, options⟩ idx = .error e) :
    fetchWithRetry t url options 0 backoff idx =
      ⟨[⟨url, options⟩], [], .error e⟩ :=
  fetchWithRetry_of_error_nonpos t url options 0 backoff idx e hfail le_rfl

/-- C7 (witness): budget `0` against the always-down transport. -/
theorem C7_zero_retries_single_attempt_witness :
    fetchWithRetry (alwaysDown : Transport Nat) "u" opts0 0 1000 0 =
      ⟨[⟨"u", opts0⟩], [], .error (.transport "down")⟩ :=
  C7_zero_retries_single_attempt alwaysDown "u" opts0 1000 0
    (.transport "down") rfl

/-- C8: when the first attempt succeeds (transport success, success
status, decodable body), exactly one attempt is made, no backoff wait
occurs, and the decoded value is returned exactly as decoded. -/
theorem C8_first_attempt_success {α : Type} (t : Transport α) (url : String)
    (options : Options) (retries backoff : Int) (idx : Nat) (s : Nat) (v : α)
    (ht : t idx ⟨url, options⟩ = .resp true s (.ok v)) :
    fetchWithRetry t url options retries backoff idx =
      ⟨[⟨url, options⟩], [], .ok v⟩ := by
  have ha : attemptOnce t ⟨url, options⟩ idx = .ok v := by
    unfold attemptOnce
    rw [ht]
    simp
  exact fetchWithRetry_of_ok t url options retries backoff idx v ha

/-- C8 (witness): an immediately succeeding transport returns its decoded
payload after a single attempt with no delay. -/
theorem C8_first_attempt_success_witness :
    fetchWithRetry goodJson "u" opts0 5 1000 0 =
      ⟨[⟨"u", opts0⟩], [], .ok 42⟩ :=
  C8_first_attempt_success goodJson "u" opts0 5 1000 0 200 42 rfl

/-- C9: a negative retry budget makes the `retries > 0` guard false after
the first failure, so exactly one attempt is made and the error propagates
with no delay — negative budgets behave like a budget of `0`. -/
theorem C9_negative_retries_single_attempt {α : Type} (t : Transport α)
    (url : String) (options : Options) (retries backoff : Int) (idx : Nat)
    (e : JsErr) (hneg : retries < 0)
    (hfail : attemptOnce t ⟨url, options⟩ idx = .error e) :
    fetchWithRetry t url options retries backoff idx =
      ⟨[⟨url, options⟩], [], .error e⟩ :=
  fetchWithRetry_of_error_nonpos t url options retries backoff idx e hfail
    (le_of_lt hneg)

/-- C9 (witness): budget `-3` against the always-down transport makes one
attempt and fails with no delay. -/
theorem C9_negative_retries_single_attempt_witness :
    fetchWithRetry (alwaysDown : Transport Nat) "u" opts0 (-3) 1000 0 =
      ⟨[⟨"u", opts0⟩], [], .error (.transport "down")⟩ :=
  C9_negative_retries_single_attempt alwaysDown "u" opts0 (-3) 1000 0
    (.transport "down") (by omega) rfl

/-- C10: `fetchWithRetry` is total (it is a function of Lean's logic) and
its number of attempts — hence its recursion depth — is bounded by
`retries.toNat + 1 = max(retries, 0) + 1` for every integer budget and
every transport behaviour. -/
theorem C10_bounded_recursion {α : Type} (t : Transport α) (url : String)
    (options : Options) (retries backoff : Int) (idx : Nat) :
    (fetchWithRetry t url options retries backoff idx).attempts.length ≤
      retries.toNat + 1 ∧
    ((retries.toNat : Int) = max retries 0) :=
  ⟨attempts_length_le t url options retries backoff idx, Int.toNat_eq_max retries⟩
